import Mathlib

/-!
Shallow embedding of `scripts/render_display.py`, the TFT display renderer of
the ESPHome radiant-actuator controller repository.

Modelling conventions:
* Python floats are modelled as exact rationals (`ℚ`); Python `int(x)` is
  truncation toward zero (`pyTrunc`), Python `//` is floor division
  (`Int.fdiv`), Python `l[-40:]` is `lastN 40 l`.
* The PIL drawing surface is modelled as the list of drawing primitives the
  renderer issues onto a freshly created 320×240 black canvas, in issue order.
  Two renders that issue the same primitive list onto fresh canvases produce
  pixel-identical images.
* A missing sensor reading (`None`) is `Option.none`; history samples are
  `Option ℚ` since the plotting loop treats `None` entries as gaps.
-/

attribute [local semireducible] Rat.add Rat.mul Rat.sub Rat.inv Rat.ofScientific

/-- RGB color triple, from the constants at the top of the script. -/
structure Color where
  r : ℕ
  g : ℕ
  b : ℕ
deriving DecidableEq

def WHITE : Color := ⟨255, 255, 255⟩
def BLACK : Color := ⟨0, 0, 0⟩
def RED : Color := ⟨255, 0, 0⟩
def GREEN : Color := ⟨0, 255, 0⟩
def BLUE : Color := ⟨0, 120, 255⟩
def ORANGE : Color := ⟨255, 165, 0⟩
def GRAY : Color := ⟨128, 128, 128⟩
def DARK_GRAY : Color := ⟨48, 48, 48⟩
def LIGHT_GRAY : Color := ⟨80, 80, 80⟩
def DARK_RED : Color := ⟨80, 0, 0⟩

/-- Layout constants (`render_display.py` lines 24-45). -/
def WIDTH : ℤ := 320
def HEIGHT : ℤ := 240
def BOX_WIDTH : ℤ := 40
def BOX_HEIGHT : ℤ := 78
def GRAPH_HEIGHT : ℤ := 84
def GRAPH_Y : ℤ := BOX_HEIGHT
def STATUS_Y : ℤ := BOX_HEIGHT + GRAPH_HEIGHT + 4
def GRAPH_RANGE : ℚ := 6

/-- The renderer's font size classes (`font_tiny` .. `font_xlarge`). -/
inductive FontSize where
  | tiny
  | small
  | medium
  | large
  | xlarge
deriving DecidableEq

/-- One drawing primitive issued to the surface, mirroring the PIL calls the
script makes (`draw.rectangle`, `draw.text`, `draw.line` with two endpoints,
`draw.line` with a point list, `draw.point`, `draw.ellipse`). -/
inductive DrawCmd where
  | rect (x0 y0 x1 y1 : ℤ) (fill : Option Color) (outline : Option Color)
  | text (x y : ℤ) (s : String) (c : Color) (f : FontSize)
  | lineSeg (x0 y0 x1 y1 : ℤ) (c : Color)
  | polyline (pts : List (ℤ × ℤ)) (c : Color)
  | point (x y : ℤ) (c : Color)
  | ellipse (x0 y0 x1 y1 : ℤ) (fill : Option Color) (outline : Option Color)
deriving DecidableEq

/-- State of a single zone (`ZoneState` dataclass, lines 48-61). -/
structure ZoneState where
  temp : Option ℚ
  setpoint : ℚ := 20
  is_heating : Bool := false
  valve_open : Bool := false
  error_score : ℤ := 0
  is_disabled : Bool := false
  history : List (Option ℚ) := []
deriving DecidableEq

/-- Complete controller state (`ControllerState` dataclass, lines 64-80). -/
structure ControllerState where
  zones : List ZoneState
  pump_on : Bool := false
  pump_demand : Bool := false
  pump_history : List Bool := List.replicate 40 false
  global_setpoint : ℚ := 20
  hysteresis : ℚ := 0.5
  ip_address : String := "192.168.1.43"
  rssi : ℤ := -65
  wifi_connected : Bool := true
  timestamp : String := "2025-01-02 14:30:00"
deriving DecidableEq

/-- Python `int(q)`: truncation toward zero. -/
def pyTrunc (q : ℚ) : ℤ := if 0 ≤ q then Rat.floor q else -Rat.floor (-q)

/-- Python slice `l[-n:]`: the last `n` elements (whole list when shorter). -/
def lastN (n : ℕ) (l : List α) : List α := l.drop (l.length - n)

/-- Python `range(start, stop, step)` for positive `step`. -/
def pyRange (start stop step : ℤ) : List ℤ :=
  (List.range (((stop - start + step - 1).fdiv step).toNat)).map
    (fun i => start + step * (i : ℤ))

/-- Round half to even, as Python float formatting does on exact values. -/
def roundHalfEven (q : ℚ) : ℤ :=
  let f := ⌊q⌋
  if q - f < 1/2 then f
  else if 1/2 < q - f then f + 1
  else if f % 2 = 0 then f else f + 1

/-- Python `f"{q:.0f}"` on an exact rational. -/
def formatF0 (q : ℚ) : String := toString (roundHalfEven q)

/-- Python `f"{q:.1f}"` on an exact rational. -/
def formatF1 (q : ℚ) : String :=
  let n := roundHalfEven (q * 10)
  (if n < 0 then "-" else "") ++ toString (n.natAbs / 10) ++ "." ++ toString (n.natAbs % 10)

/-- `sensor_missing` flag (line 131). -/
def sensorMissing (z : ZoneState) : Bool := z.temp.isNone

/-- `sensor_error` flag (line 132): present reading inside the sentinel band. -/
def sensorError (z : ZoneState) : Bool :=
  match z.temp with
  | none => false
  | some t => decide ((84.5 : ℚ) ≤ t) && decide (t ≤ (85.5 : ℚ))

/-- `safety_error` flag (line 133). -/
def safetyError (z : ZoneState) : Bool := decide ((50 : ℤ) ≤ z.error_score)

/-- The status color triple `(outline_color, text_color, bg_color)` computed by
the if/elif chain at lines 136-152 of `_draw_zone_box`. -/
def zoneColors (z : ZoneState) : Color × Color × Color :=
  if z.is_disabled then (RED, WHITE, DARK_RED)
  else if sensorMissing z then (GRAY, GRAY, DARK_GRAY)
  else if sensorError z then (RED, WHITE, DARK_GRAY)
  else if safetyError z then (WHITE, WHITE, RED)
  else if z.is_heating then (WHITE, WHITE, ORANGE)
  else (WHITE, WHITE, DARK_GRAY)

/-- Loop body of the temperature-history plot (lines 219-225): `None` and
values outside the absolute bound `[0, 100]` are skipped; kept values are
mapped into the panel and clamped to its vertical interior. -/
def traceSample (gx gy gw gh : ℤ) (graph_max total_range : ℚ) (sv : ℕ × Option ℚ) :
    Option (ℤ × ℤ) :=
  match sv.2 with
  | none => none
  | some val =>
    if val < 0 ∨ 100 < val then none
    else
      let py0 := gy + pyTrunc ((graph_max - val) / total_range * (gh : ℚ))
      let py := max (gy + 1) (min (gy + gh - 2) py0)
      let px := gx + 1 + (((sv.1 : ℤ) * (gw - 3)).fdiv 39)
      some (px, py)

/-- The `points` list built at lines 218-225. -/
def tracePoints (gx gy gw gh : ℤ) (setpoint : ℚ) (history : List (Option ℚ)) :
    List (ℤ × ℤ) :=
  (lastN 40 history).enum.filterMap
    (traceSample gx gy gw gh (setpoint + GRAPH_RANGE) (GRAPH_RANGE * 2))

/-- `hyst_upper_y` (line 209). -/
def hystUpperY (gy gh : ℤ) (sp hy : ℚ) : ℤ :=
  gy + pyTrunc ((sp + GRAPH_RANGE - (sp + hy)) / (GRAPH_RANGE * 2) * (gh : ℚ))

/-- `hyst_lower_y` (line 210). -/
def hystLowerY (gy gh : ℤ) (sp hy : ℚ) : ℤ :=
  gy + pyTrunc ((sp + GRAPH_RANGE - (sp - hy)) / (GRAPH_RANGE * 2) * (gh : ℚ))

/-- Graph content drawn when the sensor is present and the history nonempty
(lines 199-228): setpoint center line, dotted hysteresis guide points every
3 pixels clipped to the panel, and the polyline trace when at least two
points survive filtering. -/
def zoneGraphCmds (gx gy gw gh : ℤ) (zone : ZoneState) (hysteresis : ℚ) :
    List DrawCmd :=
  let sp_y := gy + Int.fdiv gh 2
  let hyst_upper_y := hystUpperY gy gh zone.setpoint hysteresis
  let hyst_lower_y := hystLowerY gy gh zone.setpoint hysteresis
  let points := tracePoints gx gy gw gh zone.setpoint zone.history
  [DrawCmd.lineSeg (gx + 1) sp_y (gx + gw - 2) sp_y GRAY]
  ++ (pyRange (gx + 2) (gx + gw - 2) 3).flatMap (fun px =>
      (if gy ≤ hyst_upper_y ∧ hyst_upper_y < gy + gh then
        [DrawCmd.point px hyst_upper_y LIGHT_GRAY] else [])
      ++ (if gy ≤ hyst_lower_y ∧ hyst_lower_y < gy + gh then
        [DrawCmd.point px hyst_lower_y LIGHT_GRAY] else []))
  ++ (if points.length > 1 then [DrawCmd.polyline points GREEN] else [])

/-- `_draw_zone_box` (lines 126-228): one 40×78 zone column plus its 40×84
graph sub-panel, as the ordered list of primitives it issues. -/
def drawZoneBox (index : ℕ) (zone : ZoneState) (hysteresis : ℚ) : List DrawCmd :=
  let x : ℤ := (index : ℤ) * BOX_WIDTH
  let cs := zoneColors zone
  let outline_color := cs.1
  let text_color := cs.2.1
  let bg_color := cs.2.2
  let heat_color := if zone.is_heating then RED else GRAY
  let valv_color := if zone.valve_open then BLUE else GRAY
  let gx := x
  let gy := GRAPH_Y
  let gw := BOX_WIDTH - 1
  let gh := GRAPH_HEIGHT
  let graph_outline := if sensorMissing zone then DARK_GRAY else LIGHT_GRAY
  [DrawCmd.rect x 0 (x + BOX_WIDTH - 2) (BOX_HEIGHT - 1) (some bg_color) (some outline_color),
   DrawCmd.text (x + 2) 1 ("Z" ++ toString (index + 1)) text_color FontSize.tiny]
  ++ (if zone.is_disabled then [DrawCmd.text (x + 22) 1 "DIS" RED FontSize.tiny] else [])
  ++ (match zone.temp with
      | some t => [DrawCmd.text (x + 3) 10 (formatF0 t) text_color FontSize.xlarge]
      | none => [DrawCmd.text (x + 8) 14 "--" GRAY FontSize.large])
  ++ [DrawCmd.text (x + 2) 32 ("set:" ++ formatF0 zone.setpoint) text_color FontSize.small]
  ++ (if zone.is_heating then
        [DrawCmd.ellipse (x + 3) 49 (x + 9) 55 (some RED) none]
      else
        [DrawCmd.ellipse (x + 3) 49 (x + 9) 55 none (some GRAY)])
  ++ [DrawCmd.text (x + 12) 48 "HEAT" heat_color FontSize.tiny]
  ++ (if zone.valve_open then
        [DrawCmd.ellipse (x + 3) 63 (x + 9) 69 (some BLUE) none]
      else
        [DrawCmd.ellipse (x + 3) 63 (x + 9) 69 none (some GRAY)])
  ++ [DrawCmd.text (x + 12) 62 "VALV" valv_color FontSize.tiny]
  ++ [DrawCmd.rect gx gy (gx + gw - 1) (gy + gh - 1) (some BLACK) (some graph_outline)]
  ++ (if !sensorMissing zone && !zone.history.isEmpty then
        zoneGraphCmds gx gy gw gh zone hysteresis
      else [])

/-- Loop body of the pump-history bars (lines 272-275). -/
def pumpBarSample (pgx pgy pgw pgh : ℤ) (sb : ℕ × Bool) : Option DrawCmd :=
  let px := pgx + 1 + (((sb.1 : ℤ) * (pgw - 3)).fdiv 39)
  if sb.2 then some (DrawCmd.lineSeg px (pgy + 2) px (pgy + pgh - 3) BLUE) else none

/-- The vertical bars of the pump graph (lines 272-275). -/
def pumpBars (pgx pgy pgw pgh : ℤ) (hist : List Bool) : List DrawCmd :=
  (lastN 40 hist).enum.filterMap (pumpBarSample pgx pgy pgw pgh)

/-- `_draw_pump_box` (lines 230-275). -/
def drawPumpBox (state : ControllerState) : List DrawCmd :=
  let pump_x : ℤ := 7 * BOX_WIDTH
  let bg_color := if state.pump_on then BLUE else DARK_GRAY
  let status_text := if state.pump_on then "ON" else "OFF"
  let status_color := if state.pump_on then WHITE else GRAY
  let dmd_color := if state.pump_demand then ORANGE else GRAY
  let rly_color := if state.pump_on then GREEN else GRAY
  let pgx := pump_x
  let pgy := GRAPH_Y
  let pgw := BOX_WIDTH - 1
  let pgh := GRAPH_HEIGHT
  [DrawCmd.rect pump_x 0 (pump_x + BOX_WIDTH - 2) (BOX_HEIGHT - 1) (some bg_color) (some WHITE),
   DrawCmd.text (pump_x + 4) 2 "PUMP" WHITE FontSize.small,
   DrawCmd.text (pump_x + 6) 18 status_text status_color FontSize.large]
  ++ (if state.pump_demand then
        [DrawCmd.ellipse (pump_x + 3) 49 (pump_x + 9) 55 (some ORANGE) none]
      else
        [DrawCmd.ellipse (pump_x + 3) 49 (pump_x + 9) 55 none (some GRAY)])
  ++ [DrawCmd.text (pump_x + 12) 48 "DMD" dmd_color FontSize.tiny]
  ++ (if state.pump_on then
        [DrawCmd.ellipse (pump_x + 3) 63 (pump_x + 9) 69 (some GREEN) none]
      else
        [DrawCmd.ellipse (pump_x + 3) 63 (pump_x + 9) 69 none (some GRAY)])
  ++ [DrawCmd.text (pump_x + 12) 62 "RLY" rly_color FontSize.tiny]
  ++ [DrawCmd.rect pgx pgy (pgx + pgw - 1) (pgy + pgh - 1) (some BLACK) (some LIGHT_GRAY)]
  ++ pumpBars pgx pgy pgw pgh state.pump_history

/-- `_draw_status_bar` (lines 277-307). -/
def drawStatusBar (state : ControllerState) : List DrawCmd :=
  let line2_y := STATUS_Y + 14
  let line3_y := STATUS_Y + 14 + 14
  let demand_color := if state.pump_demand then ORANGE else GRAY
  let demand_text := if state.pump_demand then "ACTIVE" else "idle"
  let any_valve := state.zones.any (fun z => z.valve_open)
  let valve_color := if any_valve then GREEN else GRAY
  let valve_text := if any_valve then "OPEN" else "closed"
  let active_count := (state.zones.filter (fun z => z.is_heating)).length
  let zones_color := if active_count > 0 then ORANGE else GRAY
  [DrawCmd.text 5 STATUS_Y "Net:" WHITE FontSize.small]
  ++ (if state.wifi_connected then
        [DrawCmd.text 30 STATUS_Y state.ip_address GREEN FontSize.small,
         DrawCmd.text 145 STATUS_Y ("RSSI:" ++ toString state.rssi) GRAY FontSize.tiny]
      else
        [DrawCmd.text 30 STATUS_Y "DISCONNECTED" RED FontSize.small])
  ++ [DrawCmd.text 5 line2_y state.timestamp WHITE FontSize.small,
      DrawCmd.text 200 line2_y ("Set:" ++ formatF1 state.global_setpoint ++ "C") WHITE FontSize.small,
      DrawCmd.text 5 line3_y "Demand:" WHITE FontSize.small,
      DrawCmd.text 55 line3_y demand_text demand_color FontSize.small,
      DrawCmd.text 120 line3_y "Valves:" WHITE FontSize.small,
      DrawCmd.text 170 line3_y valve_text valve_color FontSize.small,
      DrawCmd.text 240 line3_y ("Zones:" ++ toString active_count) zones_color FontSize.small]

/-- The full primitive sequence `render` issues onto the fresh canvas
(lines 109-124): zone boxes in order, pump box, status bar. -/
def renderCmds (state : ControllerState) : List DrawCmd :=
  (state.zones.enum.flatMap (fun iz => drawZoneBox iz.1 iz.2 state.hysteresis))
  ++ drawPumpBox state
  ++ drawStatusBar state

/-- The `DisplayRenderer` object: its only state between calls is `self.img`,
modelled as the primitive list drawn on the current canvas. -/
structure DisplayRenderer where
  img : List DrawCmd

/-- `DisplayRenderer.render` (lines 109-124): replaces `self.img` with a fresh
black canvas, draws everything, and returns the image. The incoming renderer
state is discarded by the fresh-canvas assignment at line 111. -/
def DisplayRenderer.render (_r : DisplayRenderer) (state : ControllerState) :
    DisplayRenderer × List DrawCmd :=
  let img := renderCmds state
  (⟨img⟩, img)

/-- `Int.floor` on `ℚ` is the executable `Rat.floor`. -/
theorem intFloor_eq_ratFloor (q : ℚ) : ⌊q⌋ = Rat.floor q := by
  rw [Rat.floor_def, Rat.floor_def']

/-- On nonnegative arguments, Python truncation is the floor. -/
theorem pyTrunc_of_nonneg {q : ℚ} (h : 0 ≤ q) : pyTrunc q = ⌊q⌋ := by
  rw [pyTrunc, if_pos h, intFloor_eq_ratFloor]

/-- On negative arguments, Python truncation is the ceiling. -/
theorem pyTrunc_of_neg {q : ℚ} (h : q < 0) : pyTrunc q = ⌈q⌉ := by
  rw [pyTrunc, if_neg (not_le.mpr h), ← intFloor_eq_ratFloor, Int.floor_neg, neg_neg]

/-- Recognizes the primitives that only the graph interior can produce:
the setpoint line, the dotted guide points and the history trace. -/
def isGraphContent : DrawCmd → Bool
  | DrawCmd.lineSeg _ _ _ _ _ => true
  | DrawCmd.point _ _ _ => true
  | DrawCmd.polyline _ _ => true
  | _ => false

/-- Recognizes a vertical-bar primitive (`draw.line` with two endpoints). -/
def isLineSeg : DrawCmd → Bool
  | DrawCmd.lineSeg _ _ _ _ _ => true
  | _ => false

/-- The x-coordinate at which a bar primitive is drawn. -/
def barX : DrawCmd → ℤ
  | DrawCmd.lineSeg x0 _ _ _ _ => x0
  | _ => 0

/-- The plotting loop's validity test (line 220): a sample survives iff it is
present and inside the absolute bound `[0, 100]`. -/
def validSample : Option ℚ → Bool
  | none => false
  | some val => !(decide (val < 0) || decide (100 < val))

/-- The spec's horizontal sample-to-pixel mapping, relative to the panel's
left edge: `x = 1 + floor(s * (panelWidth - 3) / 39)`. -/
def specSampleX (s : ℕ) (panelWidth : ℤ) : ℤ :=
  1 + (((s : ℤ) * (panelWidth - 3)).fdiv 39)

/-- C1: the zone status styling follows the fixed precedence of the if/elif
chain — disabled, then sensor missing, then sensor-fault band, then
`errorScore ≥ 50`, then heating, else neutral — first match wins; in
particular a disabled zone (whatever its error score) renders the disabled
background with the error-color outline and never the safety-error background. -/
theorem C1_zone_status_precedence (index : ℕ) (zone : ZoneState) (hy : ℚ) :
    (zone.is_disabled = true →
      zoneColors zone = (RED, WHITE, DARK_RED) ∧
      (drawZoneBox index zone hy).head? =
        some (DrawCmd.rect ((index : ℤ) * BOX_WIDTH) 0
          ((index : ℤ) * BOX_WIDTH + BOX_WIDTH - 2) (BOX_HEIGHT - 1)
          (some DARK_RED) (some RED)) ∧
      DARK_RED ≠ RED) ∧
    (zone.is_disabled = false → zone.temp = none →
      zoneColors zone = (GRAY, GRAY, DARK_GRAY)) ∧
    (∀ t : ℚ, zone.is_disabled = false → zone.temp = some t →
      84.5 ≤ t → t ≤ 85.5 → zoneColors zone = (RED, WHITE, DARK_GRAY)) ∧
    (∀ t : ℚ, zone.is_disabled = false → zone.temp = some t →
      ¬(84.5 ≤ t ∧ t ≤ 85.5) → 50 ≤ zone.error_score →
      zoneColors zone = (WHITE, WHITE, RED)) ∧
    (∀ t : ℚ, zone.is_disabled = false → zone.temp = some t →
      ¬(84.5 ≤ t ∧ t ≤ 85.5) → zone.error_score < 50 → zone.is_heating = true →
      zoneColors zone = (WHITE, WHITE, ORANGE)) ∧
    (∀ t : ℚ, zone.is_disabled = false → zone.temp = some t →
      ¬(84.5 ≤ t ∧ t ≤ 85.5) → zone.error_score < 50 → zone.is_heating = false →
      zoneColors zone = (WHITE, WHITE, DARK_GRAY)) := by
  refine ⟨fun hdis => ⟨?_, ?_, by decide⟩, fun hdis ht => ?_, fun t hdis ht h1 h2 => ?_,
    fun t hdis ht hband hsc => ?_, fun t hdis ht hband hsc hh => ?_,
    fun t hdis ht hband hsc hh => ?_⟩
  · simp [zoneColors, hdis]
  · simp [drawZoneBox, zoneColors, hdis]
  · simp [zoneColors, sensorMissing, hdis, ht]
  · have hse : sensorError zone = true := by
      simp [sensorError, ht, h1, h2]
    simp [zoneColors, sensorMissing, hdis, ht, hse]
  · have hse : sensorError zone = false := by
      simp only [sensorError, ht, Bool.and_eq_false_iff, decide_eq_false_iff_not]
      by_cases hc : (84.5 : ℚ) ≤ t
      · exact Or.inr fun h2 => hband ⟨hc, h2⟩
      · exact Or.inl hc
    have hsa : safetyError zone = true := by simp [safetyError, hsc]
    simp [zoneColors, sensorMissing, hdis, ht, hse, hsa]
  · have hse : sensorError zone = false := by
      simp only [sensorError, ht, Bool.and_eq_false_iff, decide_eq_false_iff_not]
      by_cases hc : (84.5 : ℚ) ≤ t
      · exact Or.inr fun h2 => hband ⟨hc, h2⟩
      · exact Or.inl hc
    have hsa : safetyError zone = false := by
      simp [safetyError, not_le.mpr hsc]
    simp [zoneColors, sensorMissing, hdis, ht, hse, hsa, hh]
  · have hse : sensorError zone = false := by
      simp only [sensorError, ht, Bool.and_eq_false_iff, decide_eq_false_iff_not]
      by_cases hc : (84.5 : ℚ) ≤ t
      · exact Or.inr fun h2 => hband ⟨hc, h2⟩
      · exact Or.inl hc
    have hsa : safetyError zone = false := by
      simp [safetyError, not_le.mpr hsc]
    simp [zoneColors, sensorMissing, hdis, ht, hse, hsa, hh]

/-- Witness for C1 at the concrete disabled zone with `errorScore = 100`. -/
theorem C1_zone_status_precedence_witness :
    zoneColors { temp := some 20, error_score := 100, is_disabled := true } =
      (RED, WHITE, DARK_RED) ∧ DARK_RED ≠ RED :=
  let h := (C1_zone_status_precedence 0
    { temp := some 20, error_score := 100, is_disabled := true } 0).1 rfl
  ⟨h.1, h.2.2⟩

/-- C7 (amended): for a zone with a present temperature that is not disabled,
the error-color outline is applied exactly when the temperature lies in the
closed sentinel band `[84.5, 85.5]`. -/
theorem C7_sensor_fault_band (zone : ZoneState) (t : ℚ) (ht : zone.temp = some t)
    (hdis : zone.is_disabled = false) :
    (zoneColors zone).1 = RED ↔ (84.5 ≤ t ∧ t ≤ 85.5) := by
  have hm : sensorMissing zone = false := by simp [sensorMissing, ht]
  by_cases hband : (84.5 : ℚ) ≤ t ∧ t ≤ 85.5
  · have hse : sensorError zone = true := by simp [sensorError, ht, hband.1, hband.2]
    simp [zoneColors, hdis, hm, hse, hband]
  · have hse : sensorError zone = false := by
      simp only [sensorError, ht, Bool.and_eq_false_iff, decide_eq_false_iff_not]
      by_cases hc : (84.5 : ℚ) ≤ t
      · exact Or.inr fun h2 => hband ⟨hc, h2⟩
      · exact Or.inl hc
    simp only [zoneColors, hdis, Bool.false_eq_true, if_false, hm, hse]
    constructor
    · intro h
      exfalso
      rcases Bool.eq_false_or_eq_true (safetyError zone) with hsa | hsa <;>
        rcases Bool.eq_false_or_eq_true zone.is_heating with hh | hh <;>
          simp [hsa, hh, WHITE, RED] at h
    · intro h
      exact absurd h hband

/-- Witness for C7 at temperatures 85.0, 84.4 and 85.6. -/
theorem C7_sensor_fault_band_witness :
    (zoneColors { temp := some 85 }).1 = RED ∧
    (zoneColors { temp := some 84.4 }).1 ≠ RED ∧
    (zoneColors { temp := some 85.6 }).1 ≠ RED :=
  ⟨(C7_sensor_fault_band { temp := some 85 } 85 rfl rfl).mpr (by decide),
   fun h => absurd ((C7_sensor_fault_band { temp := some 84.4 } 84.4 rfl rfl).mp h) (by decide),
   fun h => absurd ((C7_sensor_fault_band { temp := some 85.6 } 85.6 rfl rfl).mp h) (by decide)⟩

/-- C7 counterexample: a disabled zone with temperature 20 gets the
error-color (red) outline although 20 is outside the sentinel band, so over
all zones with a present temperature the error-color outline is not applied
"exactly when" the band holds. -/
theorem C7_counterexample :
    (zoneColors { temp := some 20, is_disabled := true }).1 = RED ∧
    ¬((84.5 : ℚ) ≤ 20 ∧ (20 : ℚ) ≤ 85.5) := by
  decide

/-- C9: `render` is a pure function of the controller state: whatever renderer
state is left over from earlier calls, rendering the same state issues the
identical primitive sequence onto the fresh canvas (hence pixel-identical
320×240 output), both for the returned image and for the stored one. -/
theorem C9_render_deterministic (r₁ r₂ : DisplayRenderer) (s₀ s : ControllerState) :
    DisplayRenderer.render r₁ s = DisplayRenderer.render r₂ s ∧
    (DisplayRenderer.render (DisplayRenderer.render r₁ s₀).1 s).2 =
      (DisplayRenderer.render r₂ s).2 :=
  ⟨rfl, rfl⟩

/-- C10: a disabled zone with an absent temperature draws the box with the
disabled background and error-color outline (first command), still shows the
"--" placeholder in the unavailable gray, and neither outline nor background
uses the unavailable gray. -/
theorem C10_disabled_missing_sensor (index : ℕ) (zone : ZoneState) (hy : ℚ)
    (hdis : zone.is_disabled = true) (ht : zone.temp = none) :
    (drawZoneBox index zone hy).head? =
      some (DrawCmd.rect ((index : ℤ) * BOX_WIDTH) 0
        ((index : ℤ) * BOX_WIDTH + BOX_WIDTH - 2) (BOX_HEIGHT - 1)
        (some DARK_RED) (some RED)) ∧
    DrawCmd.text ((index : ℤ) * BOX_WIDTH + 8) 14 "--" GRAY FontSize.large ∈
      drawZoneBox index zone hy ∧
    RED ≠ GRAY ∧ DARK_RED ≠ GRAY := by
  refine ⟨?_, ?_, by decide, by decide⟩
  · simp [drawZoneBox, zoneColors, hdis]
  · simp [drawZoneBox, ht]

/-- Witness for C10 at a concrete disabled, sensorless zone. -/
theorem C10_disabled_missing_sensor_witness :
    (drawZoneBox 2 { temp := none, is_disabled := true } 0).head? =
      some (DrawCmd.rect 80 0 118 77 (some DARK_RED) (some RED)) ∧
    DrawCmd.text 88 14 "--" GRAY FontSize.large ∈
      drawZoneBox 2 { temp := none, is_disabled := true } 0 ∧
    RED ≠ GRAY ∧ DARK_RED ≠ GRAY :=
  C10_disabled_missing_sensor 2 { temp := none, is_disabled := true } 0 rfl rfl

/-- The trace-point list is the per-sample map over the valid samples of the
last-40 window, in order: invalid samples contribute nothing, valid samples
exactly one point each. -/
theorem tracePoints_eq (gx gy gw gh : ℤ) (sp : ℚ) (hist : List (Option ℚ)) :
    tracePoints gx gy gw gh sp hist =
      ((lastN 40 hist).enum.filter (fun sv => validSample sv.2)).map
        (fun sv =>
          (gx + 1 + (((sv.1 : ℤ) * (gw - 3)).fdiv 39),
           max (gy + 1) (min (gy + gh - 2)
             (gy + pyTrunc ((sp + GRAPH_RANGE - sv.2.getD 0) / (GRAPH_RANGE * 2) * (gh : ℚ)))))) := by
  unfold tracePoints
  generalize (lastN 40 hist).enum = l
  induction l with
  | nil => rfl
  | cons hd tl ih =>
    obtain ⟨s, v⟩ := hd
    cases v with
    | none => simpa [List.filterMap_cons, List.filter_cons, traceSample, validSample] using ih
    | some val =>
      by_cases hv : val < 0 ∨ 100 < val
      · have hvs : validSample (some val) = false := by
          rcases hv with h | h <;> simp [validSample, h]
        simp [List.filterMap_cons, List.filter_cons, traceSample, hv, hvs, ih]
      · have hvs : validSample (some val) = true := by
          push_neg at hv
          simp [validSample, not_lt.mpr hv.1, not_lt.mpr hv.2]
        simp [List.filterMap_cons, List.filter_cons, traceSample, hv, hvs, ih]

/-- The pump-bar list is the per-sample map over the true samples of the
last-40 window, in order. -/
theorem pumpBars_eq (pgx pgy pgw pgh : ℤ) (hist : List Bool) :
    pumpBars pgx pgy pgw pgh hist =
      ((lastN 40 hist).enum.filter (fun sb => sb.2)).map
        (fun sb => DrawCmd.lineSeg (pgx + 1 + (((sb.1 : ℤ) * (pgw - 3)).fdiv 39)) (pgy + 2)
          (pgx + 1 + (((sb.1 : ℤ) * (pgw - 3)).fdiv 39)) (pgy + pgh - 3) BLUE) := by
  unfold pumpBars
  generalize (lastN 40 hist).enum = l
  induction l with
  | nil => rfl
  | cons hd tl ih =>
    obtain ⟨s, b⟩ := hd
    cases b <;> simp [List.filterMap_cons, List.filter_cons, pumpBarSample, ih]

/-- Graph-interior primitives occur in a zone box exactly when the sensor is
present, the history is nonempty, and they belong to the graph section. -/
theorem mem_drawZoneBox_graph (index : ℕ) (zone : ZoneState) (hy : ℚ) (c : DrawCmd)
    (hc : isGraphContent c = true) :
    c ∈ drawZoneBox index zone hy ↔
      sensorMissing zone = false ∧ zone.history ≠ [] ∧
      c ∈ zoneGraphCmds ((index : ℤ) * BOX_WIDTH) GRAPH_Y (BOX_WIDTH - 1) GRAPH_HEIGHT zone hy := by
  cases c with
  | rect x0 y0 x1 y1 f o => simp [isGraphContent] at hc
  | text x y s col f => simp [isGraphContent] at hc
  | ellipse x0 y0 x1 y1 f o => simp [isGraphContent] at hc
  | lineSeg x0 y0 x1 y1 col =>
    cases htemp : zone.temp <;> cases hdis : zone.is_disabled <;>
      cases hheat : zone.is_heating <;> cases hvalve : zone.valve_open <;>
        cases hhist : zone.history <;>
          simp [drawZoneBox, sensorMissing, htemp, hdis, hheat, hvalve, hhist]
  | point x y col =>
    cases htemp : zone.temp <;> cases hdis : zone.is_disabled <;>
      cases hheat : zone.is_heating <;> cases hvalve : zone.valve_open <;>
        cases hhist : zone.history <;>
          simp [drawZoneBox, sensorMissing, htemp, hdis, hheat, hvalve, hhist]
  | polyline pts col =>
    cases htemp : zone.temp <;> cases hdis : zone.is_disabled <;>
      cases hheat : zone.is_heating <;> cases hvalve : zone.valve_open <;>
        cases hhist : zone.history <;>
          simp [drawZoneBox, sensorMissing, htemp, hdis, hheat, hvalve, hhist]

/-- The only polyline the graph section draws is the trace, present exactly
when more than one point survives filtering. -/
theorem polyline_mem_zoneGraphCmds (gx gy gw gh : ℤ) (zone : ZoneState) (hy : ℚ)
    (pts : List (ℤ × ℤ)) (col : Color) :
    DrawCmd.polyline pts col ∈ zoneGraphCmds gx gy gw gh zone hy ↔
      pts = tracePoints gx gy gw gh zone.setpoint zone.history ∧
      1 < pts.length ∧ col = GREEN := by
  by_cases hP : 1 < (tracePoints gx gy gw gh zone.setpoint zone.history).length
  · constructor
    · intro h
      rcases List.mem_append.1 h with h' | h'
      · rcases List.mem_append.1 h' with h'' | h''
        · simp [zoneGraphCmds] at h''
        · rw [List.mem_flatMap] at h''
          obtain ⟨px, -, hmem⟩ := h''
          rcases List.mem_append.1 hmem with h3 | h3 <;> (split at h3 <;> simp at h3)
      · rw [if_pos hP] at h'
        simp only [List.mem_singleton, DrawCmd.polyline.injEq] at h'
        exact ⟨h'.1, h'.1 ▸ hP, h'.2⟩
    · rintro ⟨rfl, -, rfl⟩
      refine List.mem_append.2 (Or.inr ?_)
      rw [if_pos hP]
      exact List.mem_singleton.2 rfl
  · constructor
    · intro h
      exfalso
      rcases List.mem_append.1 h with h' | h'
      · rcases List.mem_append.1 h' with h'' | h''
        · simp [zoneGraphCmds] at h''
        · rw [List.mem_flatMap] at h''
          obtain ⟨px, -, hmem⟩ := h''
          rcases List.mem_append.1 hmem with h3 | h3 <;> (split at h3 <;> simp at h3)
      · rw [if_neg hP] at h'
        exact List.not_mem_nil _ h'
    · rintro ⟨rfl, hlen, -⟩
      exact absurd hlen hP

/-- C2 (amended): for every zone with an absent temperature, the box shows the
"--" placeholder, never draws the xlarge numeric temperature text, and the
graph sub-panel is rendered empty (no line, point or polyline primitive)
regardless of the stored history; when the zone is additionally not disabled,
the outline and text colors are the unavailable gray. For a disabled zone the
disabled styling overrides the gray outline/text (see the counterexample). -/
theorem C2_missing_sensor (index : ℕ) (zone : ZoneState) (hy : ℚ)
    (ht : zone.temp = none) :
    DrawCmd.text ((index : ℤ) * BOX_WIDTH + 8) 14 "--" GRAY FontSize.large ∈
      drawZoneBox index zone hy ∧
    (∀ x y s col, DrawCmd.text x y s col FontSize.xlarge ∉ drawZoneBox index zone hy) ∧
    (∀ c ∈ drawZoneBox index zone hy, isGraphContent c = false) ∧
    (zone.is_disabled = false → zoneColors zone = (GRAY, GRAY, DARK_GRAY)) := by
  have hm : sensorMissing zone = true := by simp [sensorMissing, ht]
  refine ⟨?_, ?_, ?_, fun hdis => by simp [zoneColors, hdis, hm]⟩
  · simp [drawZoneBox, ht]
  · intro x y s col
    cases hdis : zone.is_disabled <;> cases hheat : zone.is_heating <;>
      cases hvalve : zone.valve_open <;>
        simp [drawZoneBox, ht, hm, hdis, hheat, hvalve]
  · intro c hc
    cases c with
    | rect x0 y0 x1 y1 f o => rfl
    | text x y s col f => rfl
    | ellipse x0 y0 x1 y1 f o => rfl
    | lineSeg x0 y0 x1 y1 col =>
      rw [mem_drawZoneBox_graph index zone hy (DrawCmd.lineSeg x0 y0 x1 y1 col) rfl] at hc
      exact absurd hc.1 (by simp [hm])
    | point x y col =>
      rw [mem_drawZoneBox_graph index zone hy (DrawCmd.point x y col) rfl] at hc
      exact absurd hc.1 (by simp [hm])
    | polyline pts col =>
      rw [mem_drawZoneBox_graph index zone hy (DrawCmd.polyline pts col) rfl] at hc
      exact absurd hc.1 (by simp [hm])

/-- Witness for C2 at a concrete sensorless, enabled zone with stored history. -/
theorem C2_missing_sensor_witness :
    DrawCmd.text 8 14 "--" GRAY FontSize.large ∈
      drawZoneBox 0 { temp := none, history := [some 20, some 21] } 0 ∧
    (∀ x y s col, DrawCmd.text x y s col FontSize.xlarge ∉
      drawZoneBox 0 { temp := none, history := [some 20, some 21] } 0) ∧
    (∀ c ∈ drawZoneBox 0 { temp := none, history := [some 20, some 21] } 0,
      isGraphContent c = false) ∧
    zoneColors { temp := none, history := [some 20, some 21] } = (GRAY, GRAY, DARK_GRAY) := by
  have h := C2_missing_sensor 0 { temp := none, history := [some 20, some 21] } 0 rfl
  exact ⟨by simpa using h.1, fun x y s col => by simpa using h.2.1 x y s col, h.2.2.1,
    h.2.2.2 rfl⟩

/-- C2 counterexample: a disabled zone with an absent temperature has the
red disabled outline and white text color, not the unavailable gray, so the
gray-outline clause does not hold "regardless of the zone's other flags". -/
theorem C2_counterexample :
    (zoneColors { temp := none, is_disabled := true }).1 = RED ∧
    (zoneColors { temp := none, is_disabled := true }).2.1 = WHITE ∧
    RED ≠ GRAY ∧ WHITE ≠ GRAY := by
  decide

/-- C8: the pump graph draws one vertical bar per true sample of the last-40
window, at that sample's pixel column, and nothing for false samples; for
`pumpHistory = [False]*39 + [True]` the pump box contains exactly one bar,
at the rightmost sample position (x = 317 on screen). -/
theorem C8_pump_graph_bars :
    (∀ (pgx pgy pgw pgh : ℤ) (hist : List Bool),
      pumpBars pgx pgy pgw pgh hist =
        ((lastN 40 hist).enum.filter (fun sb => sb.2)).map
          (fun sb => DrawCmd.lineSeg (pgx + 1 + (((sb.1 : ℤ) * (pgw - 3)).fdiv 39)) (pgy + 2)
            (pgx + 1 + (((sb.1 : ℤ) * (pgw - 3)).fdiv 39)) (pgy + pgh - 3) BLUE)) ∧
    (drawPumpBox
        { zones := [], pump_history := List.replicate 39 false ++ [true] }).filter isLineSeg =
      [DrawCmd.lineSeg 317 80 317 159 BLUE] :=
  ⟨pumpBars_eq, by decide⟩

/-- C5 (amended): sample index `s` maps to horizontal pixel
`x = 1 + floor(s * (panelWidth - 3) / 39)` from the panel's left edge, by the
same formula for zone traces and pump bars; a full 40-sample window spans the
panel (relative x 1 for the first sample, 37 for the last), while shorter
histories occupy only the left-hand part of the panel. -/
theorem C5_sample_to_pixel :
    (∀ (gx gy gw gh : ℤ) (sp : ℚ) (hist : List (Option ℚ)),
      (tracePoints gx gy gw gh sp hist).map Prod.fst =
        ((lastN 40 hist).enum.filter (fun sv => validSample sv.2)).map
          (fun sv => gx + specSampleX sv.1 gw)) ∧
    (∀ (pgx pgy pgw pgh : ℤ) (hist : List Bool),
      (pumpBars pgx pgy pgw pgh hist).map barX =
        ((lastN 40 hist).enum.filter (fun sb => sb.2)).map
          (fun sb => pgx + specSampleX sb.1 pgw)) ∧
    specSampleX 0 39 = 1 ∧ specSampleX 39 39 = 37 := by
  refine ⟨?_, ?_, by decide, by decide⟩
  · intro gx gy gw gh sp hist
    rw [tracePoints_eq, List.map_map]
    congr 1
    funext sv
    simp [specSampleX, add_assoc]
  · intro pgx pgy pgw pgh hist
    rw [pumpBars_eq, List.map_map]
    congr 1
    funext sb
    simp [barX, specSampleX, add_assoc]

/-- C5 counterexample: for a 2-sample pump history both bars land at relative
offset 1, the leftmost interior column, so with fewer than 40 samples the
last sample does not land near the right edge (relative offset 37, x = 317). -/
theorem C5_counterexample :
    (pumpBars 280 78 39 84 [true, true]).map barX = [281, 281] ∧
    (281 : ℤ) = 280 + specSampleX 0 39 ∧ (317 : ℤ) = 280 + specSampleX 39 39 := by
  decide

/-- A raw row at a negative offset clamps to the panel's top interior row. -/
theorem clampY_top (gy : ℤ) {q : ℚ} (hq : q < 0) :
    max (gy + 1) (min (gy + 84 - 2) (gy + pyTrunc q)) = gy + 1 := by
  have h1 : pyTrunc q ≤ 0 := by
    rw [pyTrunc_of_neg hq]
    exact Int.ceil_le.2 (by exact_mod_cast hq.le)
  omega

/-- A raw row at offset 84 or more clamps to the panel's bottom interior row. -/
theorem clampY_bottom (gy : ℤ) {q : ℚ} (hq : 84 ≤ q) :
    max (gy + 1) (min (gy + 84 - 2) (gy + pyTrunc q)) = gy + 84 - 2 := by
  have h0 : (0 : ℚ) ≤ q := le_trans (by norm_num) hq
  have h1 : (84 : ℤ) ≤ pyTrunc q := by
    rw [pyTrunc_of_nonneg h0]
    exact Int.le_floor.2 (by exact_mod_cast hq)
  omega

/-- C3 (amended): a history sample inside the absolute bound `[0, 100]` but
outside the display band `[setpoint - 6, setpoint + 6]` is clamped to the
nearest panel edge and still plotted, never skipped: above the band it lands
on the top interior row `gy + 1`, below the band on the bottom interior row
`gy + 82`. (A value of `setpoint + 100` is only plotted when it also lies
within the absolute bound, i.e. `setpoint ≤ 0`; see the counterexample.) -/
theorem C3_display_band_clamp (gx gy : ℤ) (sp : ℚ) (hist : List (Option ℚ))
    (s : ℕ) (val : ℚ) (hs : (lastN 40 hist).get? s = some (some val))
    (h0 : 0 ≤ val) (h100 : val ≤ 100) :
    (sp + 6 < val →
      (gx + 1 + (((s : ℤ) * (39 - 3)).fdiv 39), gy + 1) ∈
        tracePoints gx gy 39 84 sp hist) ∧
    (val < sp - 6 →
      (gx + 1 + (((s : ℤ) * (39 - 3)).fdiv 39), gy + 84 - 2) ∈
        tracePoints gx gy 39 84 sp hist) := by
  have hmem : (s, some val) ∈ (lastN 40 hist).enum := by
    rw [List.get?_eq_getElem?] at hs
    have h2 : (lastN 40 hist).enum[s]? = some (s, some val) := by
      simp [hs]
    exact List.getElem?_mem h2
  have hcond : ¬(val < 0 ∨ 100 < val) := by push_neg; exact ⟨h0, h100⟩
  constructor
  · intro hv
    refine List.mem_filterMap.2 ⟨(s, some val), hmem, ?_⟩
    have hq : (sp + GRAPH_RANGE - val) / (GRAPH_RANGE * 2) * (((84 : ℤ) : ℚ)) < 0 := by
      rw [GRAPH_RANGE]
      push_cast
      apply mul_neg_of_neg_of_pos
      · apply div_neg_of_neg_of_pos
        · linarith
        · norm_num
      · norm_num
    simp only [traceSample, hcond, if_false]
    rw [clampY_top gy hq]
  · intro hv
    refine List.mem_filterMap.2 ⟨(s, some val), hmem, ?_⟩
    have hq : (84 : ℚ) ≤ (sp + GRAPH_RANGE - val) / (GRAPH_RANGE * 2) * (((84 : ℤ) : ℚ)) := by
      rw [GRAPH_RANGE]
      push_cast
      have h12 : (12 : ℚ) < sp + 6 - val := by linarith
      have : (sp + 6 - val) / (6 * 2) * 84 = (sp + 6 - val) * 7 := by ring
      rw [this]
      linarith
    simp only [traceSample, hcond, if_false]
    rw [clampY_bottom gy hq]

/-- Witness for C3: with setpoint 0 the sample 100 (= setpoint + 100, inside
the absolute bound) plots at the top interior row 79; with setpoint 94 the
sample 20 plots at the bottom interior row 160. -/
theorem C3_display_band_clamp_witness :
    ((1 : ℤ), (79 : ℤ)) ∈ tracePoints 0 78 39 84 0 [some 100] ∧
    ((1 : ℤ), (160 : ℤ)) ∈ tracePoints 0 78 39 84 94 [some 20] := by
  constructor
  · have h := (C3_display_band_clamp 0 78 0 [some 100] 0 100
      (by decide) (by decide) (by decide)).1 (by decide)
    simpa using h
  · have h := (C3_display_band_clamp 0 78 94 [some 20] 0 20
      (by decide) (by decide) (by decide)).2 (by decide)
    simpa using h

/-- C3 counterexample: with setpoint 20 the history value 120 = setpoint + 100
exceeds the absolute sanity bound 100 and is skipped entirely — the third
sample produces no plotted point at all, neither at the top edge row 79 nor
anywhere else (its column x = 2 holds no point). -/
theorem C3_counterexample :
    tracePoints 0 78 39 84 20 [some 20, some 21, some 120] = [(1, 120), (1, 113)] ∧
    (tracePoints 0 78 39 84 20 [some 20, some 21, some 120]).all
      (fun p => decide (p.1 ≠ 2) && decide (p.2 ≠ 79)) = true := by
  decide

/-- Filtering an enumerated list on a predicate of the element alone keeps as
many entries as filtering the list itself. -/
theorem enumFrom_filter_length (p : α → Bool) (n : ℕ) (l : List α) :
    ((l.enumFrom n).filter (fun sv => p sv.2)).length = (l.filter p).length := by
  induction l generalizing n with
  | nil => rfl
  | cons a t ih => cases hp : p a <;> simp [List.enumFrom_cons, List.filter_cons, hp, ih]

/-- C4: a missing (`None`) or out-of-bound sample contributes no trace point
while every valid sample contributes exactly one (the point count equals the
valid-sample count of the window); the trace polyline appears in a zone box
exactly when the sensor is present, the stored history is nonempty, and at
least two points survive, and it connects exactly the surviving points in
order; the history `[20.0, None, 20.2]` yields the single segment between the
pixel positions of the 1st and 3rd samples. -/
theorem C4_history_gaps :
    (∀ (gx gy gw gh : ℤ) (sp : ℚ) (hist : List (Option ℚ)),
      (tracePoints gx gy gw gh sp hist).length =
        ((lastN 40 hist).filter (fun v => validSample v)).length) ∧
    (∀ (index : ℕ) (zone : ZoneState) (hy : ℚ) (pts : List (ℤ × ℤ)) (col : Color),
      DrawCmd.polyline pts col ∈ drawZoneBox index zone hy ↔
        (sensorMissing zone = false ∧ zone.history ≠ [] ∧
         pts = tracePoints ((index : ℤ) * BOX_WIDTH) GRAPH_Y (BOX_WIDTH - 1) GRAPH_HEIGHT
           zone.setpoint zone.history ∧ 1 < pts.length ∧ col = GREEN)) ∧
    tracePoints 0 78 39 84 20 [some 20, none, some 20.2] = [(1, 120), (2, 118)] ∧
    DrawCmd.polyline [(1, 120), (2, 118)] GREEN ∈
      drawZoneBox 0 { temp := some 20, history := [some 20, none, some 20.2] } (1/2) := by
  refine ⟨?_, ?_, by decide, ?_⟩
  · intro gx gy gw gh sp hist
    rw [tracePoints_eq, List.length_map, List.enum, enumFrom_filter_length]
  · intro index zone hy pts col
    rw [mem_drawZoneBox_graph index zone hy (DrawCmd.polyline pts col) rfl,
      polyline_mem_zoneGraphCmds]
  · rw [mem_drawZoneBox_graph 0 _ _ (DrawCmd.polyline [(1, 120), (2, 118)] GREEN) rfl,
      polyline_mem_zoneGraphCmds]
    refine ⟨rfl, by decide, by decide, by decide, rfl⟩

/-- The only point primitives in the graph section are the dotted guide
points: one per 3-pixel column, on the upper or lower hysteresis row, each
row drawn exactly when it lies within the panel's vertical bounds. -/
theorem point_mem_zoneGraphCmds (gx gy gw gh : ℤ) (zone : ZoneState) (hy : ℚ)
    (px y : ℤ) (col : Color) :
    DrawCmd.point px y col ∈ zoneGraphCmds gx gy gw gh zone hy ↔
      (px ∈ pyRange (gx + 2) (gx + gw - 2) 3 ∧ col = LIGHT_GRAY ∧
        ((y = hystUpperY gy gh zone.setpoint hy ∧ gy ≤ y ∧ y < gy + gh) ∨
         (y = hystLowerY gy gh zone.setpoint hy ∧ gy ≤ y ∧ y < gy + gh))) := by
  constructor
  · intro h
    rcases List.mem_append.1 h with h' | h'
    · rcases List.mem_append.1 h' with h'' | h''
      · simp at h''
      · rw [List.mem_flatMap] at h''
        obtain ⟨px', hpx', hmem⟩ := h''
        rcases List.mem_append.1 hmem with h3 | h3
        · rcases Decidable.em (gy ≤ hystUpperY gy gh zone.setpoint hy ∧
            hystUpperY gy gh zone.setpoint hy < gy + gh) with hcond | hcond
          · rw [if_pos hcond] at h3
            simp only [List.mem_singleton, DrawCmd.point.injEq] at h3
            obtain ⟨rfl, rfl, rfl⟩ := h3
            exact ⟨hpx', rfl, Or.inl ⟨rfl, hcond.1, hcond.2⟩⟩
          · rw [if_neg hcond] at h3
            simp at h3
        · rcases Decidable.em (gy ≤ hystLowerY gy gh zone.setpoint hy ∧
            hystLowerY gy gh zone.setpoint hy < gy + gh) with hcond | hcond
          · rw [if_pos hcond] at h3
            simp only [List.mem_singleton, DrawCmd.point.injEq] at h3
            obtain ⟨rfl, rfl, rfl⟩ := h3
            exact ⟨hpx', rfl, Or.inr ⟨rfl, hcond.1, hcond.2⟩⟩
          · rw [if_neg hcond] at h3
            simp at h3
    · split at h' <;> simp at h'
  · rintro ⟨hpx, rfl, hcase⟩
    refine List.mem_append.2 (Or.inl (List.mem_append.2 (Or.inr ?_)))
    rw [List.mem_flatMap]
    refine ⟨px, hpx, ?_⟩
    rcases hcase with ⟨rfl, hb1, hb2⟩ | ⟨rfl, hb1, hb2⟩
    · exact List.mem_append.2 (Or.inl
        (by rw [if_pos ⟨hb1, hb2⟩]; exact List.mem_singleton.2 rfl))
    · exact List.mem_append.2 (Or.inr
        (by rw [if_pos ⟨hb1, hb2⟩]; exact List.mem_singleton.2 rfl))

/-- C6 (amended): for every zone with a present sensor and a nonempty stored
history, the panel shows the solid center line on the row where the setpoint
value maps, and a point primitive appears exactly at the 3-pixel-spaced guide
columns on the `setpoint + hysteresis` or `setpoint - hysteresis` row, each
row independently clipped to the panel's vertical bounds (a row entirely
outside the panel contributes no points while the other may still be drawn).
With an empty history nothing is drawn (see the counterexample). -/
theorem C6_setpoint_and_guide_lines (index : ℕ) (zone : ZoneState) (hy : ℚ) (t : ℚ)
    (ht : zone.temp = some t) (hh : zone.history ≠ []) :
    DrawCmd.lineSeg ((index : ℤ) * BOX_WIDTH + 1) (GRAPH_Y + Int.fdiv GRAPH_HEIGHT 2)
        ((index : ℤ) * BOX_WIDTH + (BOX_WIDTH - 1) - 2) (GRAPH_Y + Int.fdiv GRAPH_HEIGHT 2)
        GRAY ∈ drawZoneBox index zone hy ∧
    GRAPH_Y + Int.fdiv GRAPH_HEIGHT 2 =
      GRAPH_Y + pyTrunc ((zone.setpoint + GRAPH_RANGE - zone.setpoint) /
        (GRAPH_RANGE * 2) * ((GRAPH_HEIGHT : ℤ) : ℚ)) ∧
    (∀ px y col, DrawCmd.point px y col ∈ drawZoneBox index zone hy ↔
      (px ∈ pyRange ((index : ℤ) * BOX_WIDTH + 2)
          ((index : ℤ) * BOX_WIDTH + (BOX_WIDTH - 1) - 2) 3 ∧ col = LIGHT_GRAY ∧
       ((y = hystUpperY GRAPH_Y GRAPH_HEIGHT zone.setpoint hy ∧
           GRAPH_Y ≤ y ∧ y < GRAPH_Y + GRAPH_HEIGHT) ∨
        (y = hystLowerY GRAPH_Y GRAPH_HEIGHT zone.setpoint hy ∧
           GRAPH_Y ≤ y ∧ y < GRAPH_Y + GRAPH_HEIGHT)))) := by
  have hm : sensorMissing zone = false := by simp [sensorMissing, ht]
  refine ⟨?_, ?_, ?_⟩
  · rw [mem_drawZoneBox_graph index zone hy
      (DrawCmd.lineSeg ((index : ℤ) * BOX_WIDTH + 1) (GRAPH_Y + Int.fdiv GRAPH_HEIGHT 2)
        ((index : ℤ) * BOX_WIDTH + (BOX_WIDTH - 1) - 2) (GRAPH_Y + Int.fdiv GRAPH_HEIGHT 2)
        GRAY) rfl]
    exact ⟨hm, hh,
      List.mem_append.2 (Or.inl (List.mem_append.2 (Or.inl (List.mem_singleton.2 rfl))))⟩
  · have e : zone.setpoint + GRAPH_RANGE - zone.setpoint = GRAPH_RANGE := by ring
    rw [e]
    decide
  · intro px y col
    rw [mem_drawZoneBox_graph index zone hy (DrawCmd.point px y col) rfl,
      point_mem_zoneGraphCmds]
    simp [hm, hh]

/-- Witness for C6: a concrete zone (setpoint 20, hysteresis 0.5, one stored
sample) shows the center line on row 120 and a guide point at column 2 on the
upper hysteresis row 116. -/
theorem C6_setpoint_and_guide_lines_witness :
    DrawCmd.lineSeg 1 120 37 120 GRAY ∈
      drawZoneBox 0 { temp := some 20, history := [some 20] } (1/2) ∧
    DrawCmd.point 2 116 LIGHT_GRAY ∈
      drawZoneBox 0 { temp := some 20, history := [some 20] } (1/2) := by
  have h := C6_setpoint_and_guide_lines 0 { temp := some 20, history := [some 20] }
    (1/2) 20 rfl (by decide)
  exact ⟨by simpa using h.1,
    (h.2.2 2 116 LIGHT_GRAY).mpr ⟨by decide, rfl, Or.inl ⟨by decide, by decide, by decide⟩⟩⟩

/-- C6 counterexample: a zone with a present sensor but empty history draws
no graph content at all — no center line and no guide points — so the claim
as stated over every present-sensor zone fails. -/
theorem C6_counterexample :
    (drawZoneBox 0 { temp := some 20, history := [] } (1/2)).filter isGraphContent = [] := by
  decide
